import Mathlib

/-!
Shallow embedding of the devspace CLI's bootstrap-and-session orchestration
core (cmd/up.go, cmd/remove.go, pkg/devspace/helm/client.go,
pkg/devspace/helm/tiller.go), together with theorems checking the
natural-language specification against it.

External collaborators (the Kubernetes API, the file-sync engine, the helm
backend, the filesystem) are modelled as explicit inputs: each run of an
embedded function receives the outcomes those collaborators would produce,
and the function mirrors the Go control flow over them.  `log.Fatalf` /
`log.Panicf` terminate the process, which the embedding models as an
aborting result that performs no further work.
-/

namespace DevSpace

/-! ## Core data model -/

/-- A container of a pod (k8s `Container`, only the name is relevant). -/
structure Container where
  name : String
deriving DecidableEq, Repr

/-- A pod as observed in the cluster: identity, phase, labels, containers. -/
structure Pod where
  name : String
  ns : String
  phase : String
  labels : List (String × String)
  containers : List Container
deriving DecidableEq, Repr

/-! ## cmd/up.go — buildAndDeploy / deployChart (claims C1, C2) -/

/-- The persisted generated config (`generated.Config`); only the
`HelmChartHash` fingerprint field matters here. -/
structure GeneratedConfig where
  helmChartHash : String
deriving DecidableEq, Repr

/-- Outcome of the deploy procedure seen by `deployChart`:
`InstallChartByPath` can fail, the subsequent
`WaitForReleasePodToGetReady` can fail or time out, or both succeed and
yield the ready release pod and the new revision. -/
inductive DeployOutcome where
  | installErr
  | waitErr
  | success (pod : Pod) (revision : Nat)
deriving DecidableEq, Repr

/-- Whether install-or-upgrade and the readiness wait both succeeded. -/
def DeployOutcome.isSuccess : DeployOutcome → Bool
  | .installErr => false
  | .waitErr => false
  | .success _ _ => true

/-- `deployChart` (cmd/up.go): install-or-upgrade the chart and wait for a
release pod to become ready.  Any error is `log.Fatal`, modelled as `none`;
on success the command's pod is set to the ready pod. -/
def deployChart (outcome : DeployOutcome) : Option Pod :=
  match outcome with
  | .installErr => none
  | .waitErr => none
  | .success p _ => some p

/-- Result of one run of `buildAndDeploy`:
* `fatal` — the run aborted through `log.Fatal` (process terminated);
* `savedConfig` — `some c` iff `generated.SaveConfig` was reached, with the
  config it wrote; `none` means the generated config on disk is unchanged;
* `pod` — the pod stored in `cmd.pod`, if the run got that far;
* `deployInvoked` — whether `deployChart` (install-or-upgrade) ran. -/
structure BuildDeployResult where
  fatal : Bool
  savedConfig : Option GeneratedConfig
  pod : Option Pod
  deployInvoked : Bool
deriving DecidableEq, Repr

/-- `buildAndDeploy` (cmd/up.go).  Inputs: the loaded generated config,
whether `buildImages` reported a rebuild (`mustRedeploy`), the `--deploy`
force flag, the freshly computed chart-directory hash, the result of
`getRunningDevSpacePod` (an error, or a running release pod — the helper
lives outside the embedded sources; per the spec a missing running pod
surfaces as the error case), and the deploy outcome.  Mirrors:

```
pod, err := getRunningDevSpacePod(...)
if err != nil || mustRedeploy || cmd.flags.deploy || generatedConfig.HelmChartHash != hash {
    cmd.deployChart(generatedConfig)
    generatedConfig.HelmChartHash = hash
    err = generated.SaveConfig(generatedConfig)
    ...
} else {
    cmd.pod = pod
}
``` -/
def buildAndDeploy (generatedConfig : GeneratedConfig) (mustRedeploy forceDeploy : Bool)
    (currentHash : String) (podLookup : Except Unit Pod)
    (outcome : DeployOutcome) : BuildDeployResult :=
  let deployBranch : BuildDeployResult :=
    match deployChart outcome with
    | none => ⟨true, none, none, true⟩
    | some p => ⟨false, some ⟨currentHash⟩, some p, true⟩
  match podLookup with
  | .error _ => deployBranch
  | .ok pod =>
    if mustRedeploy ∨ forceDeploy ∨ generatedConfig.helmChartHash ≠ currentHash then
      deployBranch
    else
      ⟨false, none, some pod, false⟩

/-! ## pkg/devspace/helm/client.go — NewClient run-once bootstrap (claim C3) -/

/-- The helm client handle (`ClientWrapper`); identity is what matters, the
fields stand for the tunnel endpoint and tiller namespace it wraps. -/
structure ClientWrapper where
  tunnelLocalPort : Nat
  tillerNamespace : String
deriving DecidableEq, Repr

/-- The package-level state of pkg/devspace/helm/client.go: the
`sync.Once` guard `getOnce` (whether its body already ran) and the global
`helmClient` pointer (set only on a successful bootstrap). -/
structure OnceState where
  onceDone : Bool
  helmClient : Option ClientWrapper
deriving DecidableEq, Repr

/-- What one call to `NewClient` returns to its caller, plus whether the
bootstrap body (namespace check, tiller install, tunnel, API probe,
repo-cache provisioning) actually executed during this call. -/
structure NewClientResult where
  client : Option ClientWrapper
  err : Option String
  bootstrapRan : Bool
deriving DecidableEq, Repr

/-- `NewClient` (pkg/devspace/helm/client.go).  `attempt` is the outcome the
bootstrap body would produce if it runs (success with a client, or the
first error along the way).  Mirrors:

```
var outerError error            // local to this call
getOnce.Do(func() { ... outerError = ...; helmClient = wrapper })
return helmClient, outerError
```

Crucially `outerError` is a fresh local on every call, while `helmClient`
and `getOnce` are package globals. -/
def NewClient (s : OnceState) (attempt : Except String ClientWrapper) :
    NewClientResult × OnceState :=
  if s.onceDone then
    (⟨s.helmClient, none, false⟩, s)
  else
    match attempt with
    | .ok c => (⟨some c, none, true⟩, ⟨true, some c⟩)
    | .error e => (⟨none, some e, true⟩, ⟨true, none⟩)

/-! ## pkg/devspace/helm/tiller.go — waitUntilTillerIsStarted (claim C4) -/

/-- One observation of the tiller deployment made by the polling loop:
either the `Deployments(...).Get` call errors, or it yields the deployment
status (ready-replica count, desired-replica count). -/
inductive TillerObs where
  | fetchErr
  | status (readyReplicas replicas : Int)
deriving DecidableEq, Repr

/-- How a run of the wait loop ended. `stillWaiting` means the loop had not
returned after consuming every supplied observation — the modelled run is
still inside the loop. -/
inductive WaitOutcome where
  | started
  | timeout
  | stillWaiting
deriving DecidableEq, Repr

/-- The loop body of `waitUntilTillerIsStarted`, with the remaining budget
`tillerWaitingTime` in seconds.  Mirrors:

```
for tillerWaitingTime > 0 {
    tillerDeployment, err := ...Deployments(ns).Get(TillerDeploymentName, ...)
    if err != nil { continue }                         // no sleep, no decrement
    if tillerDeployment.Status.ReadyReplicas == tillerDeployment.Status.Replicas {
        return nil
    }
    time.Sleep(tillerCheckInterval)                    // 5s
    tillerWaitingTime = tillerWaitingTime - tillerCheckInterval
}
return errors.New("Tiller didn't start in time")
``` -/
def waitTillerLoop : Int → List TillerObs → WaitOutcome
  | budget, [] => if budget > 0 then .stillWaiting else .timeout
  | budget, o :: rest =>
    if budget > 0 then
      match o with
      | .fetchErr => waitTillerLoop budget rest
      | .status r d => if r = d then .started else waitTillerLoop (budget - 5) rest
    else .timeout

/-- `waitUntilTillerIsStarted` (pkg/devspace/helm/tiller.go): the loop above
started with `tillerWaitingTime = 2 * 60` seconds and a 5-second check
interval. -/
def waitUntilTillerIsStarted (obs : List TillerObs) : WaitOutcome :=
  waitTillerLoop 120 obs

/-! ## cmd/up.go — startSync / startPortForwarding (claims C5, C6, C7, C9) -/

/-- Does a pod match a sync/port-forward lookup: right namespace, currently
`Running`, and it carries every `key=value` pair of the label selector. -/
def podMatches (selector : List (String × String)) (ns : String) (p : Pod) : Bool :=
  p.ns == ns && p.phase == "Running" && selector.all (fun kv => p.labels.contains kv)

/-- Modelled from the spec: `kubectl.GetFirstRunningPod`
(pkg/devspace/kubectl, not under the embedded sources) — "look up the first
pod currently running that matches" the label selector in the given
namespace; `none` when no running pod matches. -/
def GetFirstRunningPod (pods : List Pod) (selector : List (String × String))
    (ns : String) : Option Pod :=
  pods.find? (podMatches selector ns)

/-- Namespace resolution shared by both loops:
`namespace := releaseNamespace; if decl.Namespace != nil && *decl.Namespace != "" { namespace = *decl.Namespace }`. -/
def resolveNamespace (releaseNs : String) (override : Option String) : String :=
  match override with
  | some s => if s ≠ "" then s else releaseNs
  | none => releaseNs

/-- One entry of `config.DevSpace.Sync` (v1.SyncConfig), the fields the
startSync loop reads. -/
structure SyncDecl where
  localSubPath : String
  containerPath : String
  labelSelector : List (String × String)
  containerName : Option String
  nsOverride : Option String
deriving DecidableEq, Repr

/-- The warnings `startSync` can log for a skipped mapping. -/
inductive SyncWarn where
  | noContainers
  | containerNotFound
deriving DecidableEq, Repr

/-- A started sync session (`synctool.SyncConfig` after `Start` succeeded):
the resolved pod and container plus the declared paths. -/
structure SyncHandle where
  pod : Pod
  container : Container
  watchPath : String
  destPath : String
deriving DecidableEq, Repr

/-- How one iteration of the `startSync` loop ends for one declaration. -/
inductive SyncStepResult where
  | skipNoPod
  | warnSkip (w : SyncWarn)
  | fatalStart
  | started (h : SyncHandle)
deriving DecidableEq, Repr

/-- The container-selection logic of the `startSync` loop body:
`container := &pod.Spec.Containers[0]`, then, when a non-empty container
name is declared, scan the pod's containers for that name (warn-and-skip,
i.e. `none`, when absent). -/
def chooseContainer (pod : Pod) (c0 : Container) (containerName : Option String) :
    Option Container :=
  match containerName with
  | none => some c0
  | some cn =>
    if cn = "" then some c0
    else pod.containers.find? (fun c => c.name == cn)

/-- One iteration of the `startSync` loop (cmd/up.go): resolve namespace,
look up the first running matching pod (a nil pod falls through the
`else if pod != nil` with no log at all), guard against a pod with no
containers, select the first container unless a non-empty container name is
declared (which must then exist in the pod, else warn-and-skip), and start
the session; `startOk` is whether `syncConfig.Start()` succeeds — an error
there is `log.Fatalf`. -/
def startSyncStep (releaseNs : String) (pods : List Pod) (startOk : Bool)
    (d : SyncDecl) : SyncStepResult :=
  match GetFirstRunningPod pods d.labelSelector (resolveNamespace releaseNs d.nsOverride) with
  | none => .skipNoPod
  | some pod =>
    match pod.containers with
    | [] => .warnSkip .noContainers
    | c0 :: _ =>
      match chooseContainer pod c0 d.containerName with
      | none => .warnSkip .containerNotFound
      | some c =>
        if startOk then .started ⟨pod, c, d.localSubPath, d.containerPath⟩
        else .fatalStart

/-- Cumulative result of the `startSync` loop: the handles of the sessions
that were started, the warnings that were logged, and whether the run died
in `log.Fatalf` (after which no further declaration is processed). -/
structure SyncBatchResult where
  handles : List SyncHandle
  warns : List SyncWarn
  fatal : Bool
deriving DecidableEq, Repr

/-- `startSync` (cmd/up.go): fold the loop over the declared sync mappings,
each paired with whether its `Start()` call would succeed. -/
def startSync (releaseNs : String) (pods : List Pod) :
    List (SyncDecl × Bool) → SyncBatchResult
  | [] => ⟨[], [], false⟩
  | (d, ok) :: rest =>
    match startSyncStep releaseNs pods ok d with
    | .skipNoPod => startSync releaseNs pods rest
    | .warnSkip w =>
      let r := startSync releaseNs pods rest
      ⟨r.handles, w :: r.warns, r.fatal⟩
    | .fatalStart => ⟨[], [], true⟩
    | .started h =>
      let r := startSync releaseNs pods rest
      ⟨h :: r.handles, r.warns, r.fatal⟩

/-- One local:remote port pair of a port-forwarding declaration. -/
structure PortMapping where
  localPort : Int
  remotePort : Int
deriving DecidableEq, Repr

/-- One entry of `config.DevSpace.PortForwarding`
(v1.PortForwardingConfig), the fields the loop reads. -/
structure PortForwardDecl where
  resourceType : Option String
  labelSelector : List (String × String)
  portMappings : List PortMapping
  nsOverride : Option String
deriving DecidableEq, Repr

/-- How one iteration of the `startPortForwarding` loop ends.  There is no
fatal constructor: every path logs at most a warning or an error and the
loop moves on. -/
inductive ForwardStepResult where
  | warnResourceType
  | skipEmptySelector
  | skipNoPod
  | startedReady (pod : Pod) (ports : List (Int × Int))
  | startedTimeoutLogged (pod : Pod) (ports : List (Int × Int))
deriving DecidableEq, Repr

/-- One iteration of the `startPortForwarding` loop (cmd/up.go): only the
`pod` resource type is supported (else a warning), an empty label selector
skips silently, a nil pod skips silently, and otherwise the forwarder is
started in the background and the loop waits up to 5 seconds on the
readiness channel — `readyInTime` says whether the readiness signal won
that race; a timeout only logs an error. -/
def startPortForwardingStep (releaseNs : String) (pods : List Pod)
    (readyInTime : Bool) (d : PortForwardDecl) : ForwardStepResult :=
  if d.resourceType = none ∨ d.resourceType = some "pod" then
    if d.labelSelector.length > 0 then
      let ns := resolveNamespace releaseNs d.nsOverride
      match GetFirstRunningPod pods d.labelSelector ns with
      | none => .skipNoPod
      | some pod =>
        let ports := d.portMappings.map (fun pm => (pm.localPort, pm.remotePort))
        if readyInTime then .startedReady pod ports
        else .startedTimeoutLogged pod ports
    else .skipEmptySelector
  else .warnResourceType

/-- `startPortForwarding` (cmd/up.go): process every declared mapping in
order; no outcome of one mapping stops the loop. -/
def startPortForwarding (releaseNs : String) (pods : List Pod)
    (ds : List (PortForwardDecl × Bool)) : List ForwardStepResult :=
  ds.map (fun p => startPortForwardingStep releaseNs pods p.2 p.1)

/-! ## cmd/remove.go — RunRemoveSync / RunRemovePort (claims C8, C10) -/

/-- Modelled from the spec: `isMapEqual` (defined elsewhere in cmd/, not
under the embedded sources) — the selector-equality test the remove
sub-operations use ("removal by selector"); modelled as key/value map
equality of the two label-selector maps. -/
def isMapEqual (a b : List (String × String)) : Bool :=
  a.length == b.length && a.all (fun kv => b.contains kv)

/-- One entry of `config.DevSpace.Sync` as cmd/remove.go reads it
(v1.SyncConfig: local path, container path, label selector). -/
structure SyncConfigEntry where
  localSubPath : String
  containerPath : String
  labelSelector : List (String × String)
deriving DecidableEq, Repr

/-- One entry of `config.DevSpace.Ports` (v1.PortForwardingConfig) as
cmd/remove.go reads it. -/
structure PortForwardingConfig where
  labelSelector : List (String × String)
  portMappings : List PortMapping
deriving DecidableEq, Repr

/-- Result of a remove sub-operation: whether the "You have to specify at
least one of the supported flags" error was printed, and the new
configuration written through `configutil.SaveConfig` (`none` when nothing
was written). -/
structure RemoveResult (α : Type) where
  errorPrinted : Bool
  saved : Option α
deriving Repr

/-- The sync-entry filter loop of `RunRemoveSync`: keep every entry that the
flags do not select (the Go loop `continue`s, i.e. drops, an entry when
`RemoveAll` is set, or its local path / container path equals the
corresponding flag, or its label selector equals the parsed selector). -/
def removeSyncEntries (selMap : List (String × String)) (removeAll : Bool)
    (localPath containerPathFlag : String) :
    List SyncConfigEntry → List SyncConfigEntry
  | [] => []
  | v :: rest =>
    if removeAll ∨ localPath = v.localSubPath ∨ containerPathFlag = v.containerPath
        ∨ isMapEqual selMap v.labelSelector then
      removeSyncEntries selMap removeAll localPath containerPathFlag rest
    else
      v :: removeSyncEntries selMap removeAll localPath containerPathFlag rest

/-- `RunRemoveSync` (cmd/remove.go).  `selMap` is the successfully parsed
`--selector` flag (`parseSelectors` lives outside the embedded sources; an
empty flag parses to an empty map).  With no selector, no `--local`, no
`--container` and `--all` unset it prints an error and returns before
touching the configuration; otherwise, when sync entries exist, it rewrites
`config.DevSpace.Sync` and saves. -/
def RunRemoveSync (selMap : List (String × String)) (removeAll : Bool)
    (localPath containerPathFlag : String)
    (syncCfg : Option (List SyncConfigEntry)) :
    RemoveResult (List SyncConfigEntry) :=
  if selMap.length = 0 ∧ removeAll = false ∧ localPath = "" ∧ containerPathFlag = "" then
    ⟨true, none⟩
  else
    match syncCfg with
    | none => ⟨false, none⟩
    | some entries =>
      if entries.length > 0 then
        ⟨false, some (removeSyncEntries selMap removeAll localPath containerPathFlag entries)⟩
      else ⟨false, none⟩

/-- Embedding of Go's `strings.Split(s, ",")`: cut the character list at
every comma; the accumulator holds the current field reversed. -/
def splitCommaAux : List Char → List Char → List String
  | [], acc => [String.mk acc.reverse]
  | c :: rest, acc =>
    if c = ',' then String.mk acc.reverse :: splitCommaAux rest []
    else splitCommaAux rest (c :: acc)

/-- `strings.Split(argPorts, ",")` as used by `RunRemovePort`. -/
def splitComma (s : String) : List String :=
  splitCommaAux s.data []

/-- Embedding of Go's `strings.TrimSpace`: drop whitespace from both ends. -/
def trimSpace (s : String) : String :=
  String.mk (((s.data.dropWhile Char.isWhitespace).reverse.dropWhile
    Char.isWhitespace).reverse)

/-- `containsPort` (cmd/remove.go): is `port` among the comma-separated,
whitespace-trimmed requested ports. -/
def containsPort (port : String) (ports : List String) : Bool :=
  ports.any (fun v => trimSpace v == port)

/-- The inner mapping filter of `RunRemovePort`: drop every port mapping
whose local or remote port is among the requested ports. -/
def filterPortMappings (ports : List String) : List PortMapping → List PortMapping
  | [] => []
  | pm :: rest =>
    if containsPort (toString pm.localPort) ports
        ∨ containsPort (toString pm.remotePort) ports then
      filterPortMappings ports rest
    else pm :: filterPortMappings ports rest

/-- The entry loop of `RunRemovePort`: drop entries selected by `--all` or
the selector; for the rest, filter their port mappings and keep the entry
only if at least one mapping remains (`if len(newPortMappings) > 0`). -/
def removePortEntries (selMap : List (String × String)) (removeAll : Bool)
    (ports : List String) : List PortForwardingConfig → List PortForwardingConfig
  | [] => []
  | v :: rest =>
    if removeAll ∨ isMapEqual selMap v.labelSelector then
      removePortEntries selMap removeAll ports rest
    else
      let newPortMappings := filterPortMappings ports v.portMappings
      if newPortMappings.length > 0 then
        ⟨v.labelSelector, newPortMappings⟩ :: removePortEntries selMap removeAll ports rest
      else
        removePortEntries selMap removeAll ports rest

/-- `RunRemovePort` (cmd/remove.go).  `selMap` is the parsed `--selector`
flag and `argPorts` the single optional positional argument.  With no
selector, no ports argument and `--all` unset it prints an error and
returns before touching the configuration; otherwise, when port entries
exist, it rewrites `config.DevSpace.Ports` and saves. -/
def RunRemovePort (selMap : List (String × String)) (removeAll : Bool)
    (argPorts : String) (portsCfg : Option (List PortForwardingConfig)) :
    RemoveResult (List PortForwardingConfig) :=
  if selMap.length = 0 ∧ removeAll = false ∧ argPorts = "" then
    ⟨true, none⟩
  else
    let ports := splitComma argPorts
    match portsCfg with
    | none => ⟨false, none⟩
    | some entries =>
      if entries.length > 0 then
        ⟨false, some (removePortEntries selMap removeAll ports entries)⟩
      else ⟨false, none⟩

/-! ## Theorems -/

/-- C1: the persisted fingerprint is written iff `deployChart` ran and both
install-or-upgrade and the readiness wait succeeded — and then it is the
freshly computed hash.  In particular a failed or timed-out readiness wait
(`DeployOutcome.waitErr`) leaves the generated config on disk unchanged
(`savedConfig = none`), so the next run sees the stale fingerprint and
re-attempts deployment. -/
theorem buildAndDeploy_saves_fingerprint_iff_deploy_succeeds
    (gc : GeneratedConfig) (mr fd : Bool) (h : String)
    (pl : Except Unit Pod) (oc : DeployOutcome) :
    (buildAndDeploy gc mr fd h pl oc).savedConfig =
      if (buildAndDeploy gc mr fd h pl oc).deployInvoked && oc.isSuccess
      then some ⟨h⟩ else none := by
  cases pl with
  | error e => cases oc <;> simp [buildAndDeploy, deployChart, DeployOutcome.isSuccess]
  | ok pod =>
    by_cases hcond : mr = true ∨ fd = true ∨ ¬gc.helmChartHash = h <;>
      cases oc <;>
      simp [buildAndDeploy, deployChart, DeployOutcome.isSuccess, hcond]

/-- C2: with a running release pod found, no image rebuilt, the `--deploy`
force flag unset and the chart hash equal to the cached fingerprint,
`buildAndDeploy` takes the fast path: the command's pod becomes the
existing running pod, `deployChart` (install-or-upgrade) is not invoked and
the generated config is not rewritten. -/
theorem buildAndDeploy_skips_deploy_on_unchanged_fingerprint
    (gc : GeneratedConfig) (h : String) (pod : Pod) (oc : DeployOutcome)
    (hh : gc.helmChartHash = h) :
    buildAndDeploy gc false false h (Except.ok pod) oc =
      ⟨false, none, some pod, false⟩ := by
  simp [buildAndDeploy, hh]

/-- Witness for C2 at a concrete input. -/
theorem buildAndDeploy_skips_deploy_witness :
    buildAndDeploy ⟨"abc"⟩ false false "abc"
        (Except.ok ⟨"p", "n", "Running", [], []⟩) DeployOutcome.installErr =
      ⟨false, none, some ⟨"p", "n", "Running", [], []⟩, false⟩ :=
  buildAndDeploy_skips_deploy_on_unchanged_fingerprint _ _ _ _ rfl

/-- C3 counterexample: when the single bootstrap attempt fails, the first
caller of `NewClient` observes the error, but a later caller observes *no*
error (and a nil client): `outerError` is local to each call, so the claim
that every caller observes the same failure outcome is false. -/
theorem NewClient_later_caller_observes_no_error :
    (NewClient ⟨false, none⟩ (Except.error "boom")).1.err = some "boom"
    ∧ (NewClient (NewClient ⟨false, none⟩ (Except.error "boom")).2
        (Except.error "boom")).1.err = none
    ∧ (NewClient (NewClient ⟨false, none⟩ (Except.error "boom")).2
        (Except.error "boom")).1.client = none := by
  decide

/-- C3 (amended): the bootstrap body runs at most once — a second call does
no bootstrap work; on success every caller (first or later) gets the same
client handle; on failure only the first caller observes the error, while
later callers get a nil client and a nil error. -/
theorem NewClient_run_once_outcome (a b : Except String ClientWrapper) :
    (NewClient (NewClient ⟨false, none⟩ a).2 b).1.bootstrapRan = false
    ∧ (∀ c, a = Except.ok c →
        (NewClient ⟨false, none⟩ a).1 = ⟨some c, none, true⟩
        ∧ (NewClient (NewClient ⟨false, none⟩ a).2 b).1 = ⟨some c, none, false⟩)
    ∧ (∀ e, a = Except.error e →
        (NewClient ⟨false, none⟩ a).1 = ⟨none, some e, true⟩
        ∧ (NewClient (NewClient ⟨false, none⟩ a).2 b).1 = ⟨none, none, false⟩) := by
  cases a <;> simp [NewClient]

/-- Witness for C3's amended theorem: a successful bootstrap shared by a
later caller that performs no work. -/
theorem NewClient_run_once_outcome_witness :
    (NewClient (NewClient ⟨false, none⟩ (Except.ok ⟨44321, "kube-system"⟩)).2
        (Except.error "x")).1 = ⟨some ⟨44321, "kube-system"⟩, none, false⟩ :=
  ((NewClient_run_once_outcome (Except.ok ⟨44321, "kube-system"⟩)
      (Except.error "x")).2.1 ⟨44321, "kube-system"⟩ rfl).2

/-- C4 (code bug): when every `Deployments(...).Get` call errors, the loop
`continue`s without sleeping or decrementing `tillerWaitingTime`, so the
2-minute budget never shrinks: after 100 consecutive fetch errors — more
than four times the 24 polls the budget allows — the loop is still running
rather than having returned the "Tiller didn't start in time" error. -/
theorem waitUntilTillerIsStarted_busy_loops_on_fetch_errors :
    waitUntilTillerIsStarted (List.replicate 100 TillerObs.fetchErr) =
      WaitOutcome.stillWaiting := by
  decide

/-- C5 counterexample: with a selector matching no running pod (the lookup
succeeds and yields nil), the sync mapping is skipped with *no* warning —
the batch result records no warning at all — and the port-forward step
likewise skips silently; the claim's "skipped with a warning" is false at
this input. -/
theorem startSync_no_match_skips_without_warning :
    startSync "dns" [⟨"p1", "dns", "Running", [("app", "y")], [⟨"c1"⟩]⟩]
        [(⟨"/l", "/c", [("app", "x")], none, none⟩, true)] = ⟨[], [], false⟩
    ∧ startPortForwardingStep "dns"
        [⟨"p1", "dns", "Running", [("app", "y")], [⟨"c1"⟩]⟩] true
        ⟨none, [("app", "x")], [⟨8080, 80⟩], none⟩ =
      ForwardStepResult.skipNoPod := by
  decide

/-- C5 (amended): a sync or port-forward declaration whose selector matches
no running pod is skipped silently — no warning, no session handle, and the
rest of the batch proceeds unchanged; a declaration that does match binds
its session to the pod the lookup resolved, i.e. the first running matching
pod. -/
theorem no_matching_pod_skips_silently (rns : String) (pods : List Pod)
    (d : SyncDecl) (ok : Bool) (rest : List (SyncDecl × Bool))
    (fd : PortForwardDecl) (rdy : Bool) :
    (GetFirstRunningPod pods d.labelSelector (resolveNamespace rns d.nsOverride) = none →
      startSyncStep rns pods ok d = .skipNoPod
      ∧ startSync rns pods ((d, ok) :: rest) = startSync rns pods rest)
    ∧ ((fd.resourceType = none ∨ fd.resourceType = some "pod") →
        fd.labelSelector.length > 0 →
        GetFirstRunningPod pods fd.labelSelector (resolveNamespace rns fd.nsOverride) = none →
        startPortForwardingStep rns pods rdy fd = .skipNoPod)
    ∧ (∀ hdl, startSyncStep rns pods ok d = .started hdl →
        GetFirstRunningPod pods d.labelSelector (resolveNamespace rns d.nsOverride) =
          some hdl.pod) := by
  refine ⟨fun hnone => ⟨?_, ?_⟩, fun h1 h2 hnone => ?_, fun hdl hstep => ?_⟩
  · simp [startSyncStep, hnone]
  · simp [startSync, startSyncStep, hnone]
  · simp [startPortForwardingStep, h1, h2, hnone]
  · cases hl : GetFirstRunningPod pods d.labelSelector (resolveNamespace rns d.nsOverride) with
    | none =>
      simp only [startSyncStep, hl] at hstep
      exact absurd hstep (by simp)
    | some pod =>
      simp only [startSyncStep, hl] at hstep
      cases hc : pod.containers with
      | nil =>
        simp only [hc] at hstep
        exact absurd hstep (by simp)
      | cons c0 cs =>
        simp only [hc] at hstep
        cases hch : chooseContainer pod c0 d.containerName with
        | none =>
          simp only [hch] at hstep
          exact absurd hstep (by simp)
        | some c =>
          simp only [hch] at hstep
          by_cases hok : ok = true
          · simp only [hok, if_true, SyncStepResult.started.injEq] at hstep
            rw [← hstep]
          · simp only [hok, if_false] at hstep
            exact absurd hstep (by simp)

/-- Witness for C5's amended theorem at a concrete input: one declaration
with an unmatched selector is skipped silently in both loops. -/
theorem no_matching_pod_skips_silently_witness :
    startSyncStep "dns" [⟨"p1", "dns", "Running", [("app", "y")], [⟨"c1"⟩]⟩] true
        ⟨"/l", "/c", [("app", "x")], none, none⟩ = .skipNoPod
    ∧ startPortForwardingStep "dns"
        [⟨"p1", "dns", "Running", [("app", "y")], [⟨"c1"⟩]⟩] false
        ⟨some "pod", [("app", "x")], [⟨8080, 80⟩], none⟩ =
      ForwardStepResult.skipNoPod :=
  ⟨((no_matching_pod_skips_silently "dns"
      [⟨"p1", "dns", "Running", [("app", "y")], [⟨"c1"⟩]⟩]
      ⟨"/l", "/c", [("app", "x")], none, none⟩ true []
      ⟨some "pod", [("app", "x")], [⟨8080, 80⟩], none⟩ false).1 (by decide)).1,
   (no_matching_pod_skips_silently "dns"
      [⟨"p1", "dns", "Running", [("app", "y")], [⟨"c1"⟩]⟩]
      ⟨"/l", "/c", [("app", "x")], none, none⟩ true []
      ⟨some "pod", [("app", "x")], [⟨8080, 80⟩], none⟩ false).2.1
      (by decide) (by decide) (by decide)⟩

/-- C6: failure policy is asymmetric — a sync declaration whose `Start()`
errors kills the whole run (`log.Fatalf`: the batch ends fatal, no further
declaration is processed), while a port-forward mapping whose 5-second
readiness wait expires merely yields a logged timeout step and the loop
processes every remaining mapping (the step type has no fatal outcome). -/
theorem sync_fatal_forward_timeout_nonfatal (rns : String) (pods : List Pod)
    (d : SyncDecl) (rest : List (SyncDecl × Bool)) (fd : PortForwardDecl)
    (rest2 : List (PortForwardDecl × Bool)) (p : Pod) :
    (startSyncStep rns pods false d = .fatalStart →
      startSync rns pods ((d, false) :: rest) = ⟨[], [], true⟩)
    ∧ ((fd.resourceType = none ∨ fd.resourceType = some "pod") →
        fd.labelSelector.length > 0 →
        GetFirstRunningPod pods fd.labelSelector (resolveNamespace rns fd.nsOverride) = some p →
        startPortForwardingStep rns pods false fd =
          .startedTimeoutLogged p
            (fd.portMappings.map (fun pm => (pm.localPort, pm.remotePort))))
    ∧ startPortForwarding rns pods ((fd, false) :: rest2) =
        startPortForwardingStep rns pods false fd :: startPortForwarding rns pods rest2 := by
  refine ⟨fun hfatal => ?_, fun h1 h2 hsome => ?_, ?_⟩
  · simp [startSync, hfatal]
  · simp [startPortForwardingStep, h1, h2, hsome]
  · simp [startPortForwarding]

/-- Witness for C6 at a concrete input: a matched sync declaration whose
start fails is fatal; a matched port-forward mapping that times out is a
logged, non-fatal step. -/
theorem sync_fatal_forward_timeout_nonfatal_witness :
    startSync "dns" [⟨"p1", "dns", "Running", [("app", "x")], [⟨"c1"⟩]⟩]
        [(⟨"/l", "/c", [("app", "x")], none, none⟩, false),
         (⟨"/m", "/d", [("app", "x")], none, none⟩, true)] = ⟨[], [], true⟩
    ∧ startPortForwardingStep "dns"
        [⟨"p1", "dns", "Running", [("app", "x")], [⟨"c1"⟩]⟩] false
        ⟨none, [("app", "x")], [⟨8080, 80⟩], none⟩ =
      .startedTimeoutLogged ⟨"p1", "dns", "Running", [("app", "x")], [⟨"c1"⟩]⟩
        [(8080, 80)] :=
  ⟨(sync_fatal_forward_timeout_nonfatal "dns"
      [⟨"p1", "dns", "Running", [("app", "x")], [⟨"c1"⟩]⟩]
      ⟨"/l", "/c", [("app", "x")], none, none⟩
      [(⟨"/m", "/d", [("app", "x")], none, none⟩, true)]
      ⟨none, [("app", "x")], [⟨8080, 80⟩], none⟩ []
      ⟨"p1", "dns", "Running", [("app", "x")], [⟨"c1"⟩]⟩).1 (by decide),
   (sync_fatal_forward_timeout_nonfatal "dns"
      [⟨"p1", "dns", "Running", [("app", "x")], [⟨"c1"⟩]⟩]
      ⟨"/l", "/c", [("app", "x")], none, none⟩
      [(⟨"/m", "/d", [("app", "x")], none, none⟩, true)]
      ⟨none, [("app", "x")], [⟨8080, 80⟩], none⟩ []
      ⟨"p1", "dns", "Running", [("app", "x")], [⟨"c1"⟩]⟩).2.1
      (by decide) (by decide) (by decide)⟩

/-- A container chosen by the sync loop's selection logic is always one of
the resolved pod's containers. -/
theorem chooseContainer_mem (pod : Pod) (c0 : Container) (nm : Option String)
    (c : Container) (hc0 : c0 ∈ pod.containers)
    (h : chooseContainer pod c0 nm = some c) : c ∈ pod.containers := by
  cases nm with
  | none =>
    simp only [chooseContainer, Option.some.injEq] at h
    rw [← h]; exact hc0
  | some cn =>
    by_cases he : cn = ""
    · simp only [chooseContainer, he, if_true, Option.some.injEq] at h
      rw [← h]; exact hc0
    · simp only [chooseContainer, he, if_false] at h
      exact List.mem_of_find?_eq_some h

/-- C7: container selection in the sync loop — with no declared container
name the resolved pod's first container is used; with a declared non-empty
name absent from the pod, the mapping is skipped with the
container-not-found warning, and the remaining declarations of the batch
are still processed (the batch result is the rest's result plus the one
warning — no abort). -/
theorem sync_container_selection (rns : String) (pods : List Pod) (ok : Bool)
    (d : SyncDecl) (rest : List (SyncDecl × Bool)) :
    (∀ pod c0 cs,
      GetFirstRunningPod pods d.labelSelector (resolveNamespace rns d.nsOverride) = some pod →
      pod.containers = c0 :: cs → d.containerName = none →
      startSyncStep rns pods true d = .started ⟨pod, c0, d.localSubPath, d.containerPath⟩)
    ∧ (∀ pod cn,
        GetFirstRunningPod pods d.labelSelector (resolveNamespace rns d.nsOverride) = some pod →
        d.containerName = some cn → cn ≠ "" → pod.containers ≠ [] →
        pod.containers.find? (fun c => c.name == cn) = none →
        startSyncStep rns pods ok d = .warnSkip .containerNotFound)
    ∧ (startSyncStep rns pods ok d = .warnSkip .containerNotFound →
        startSync rns pods ((d, ok) :: rest) =
          ⟨(startSync rns pods rest).handles,
           SyncWarn.containerNotFound :: (startSync rns pods rest).warns,
           (startSync rns pods rest).fatal⟩) := by
  refine ⟨fun pod c0 cs hl hc hn => ?_, fun pod cn hl hn hne hcne hfind => ?_,
    fun hstep => ?_⟩
  · simp [startSyncStep, hl, hc, chooseContainer, hn]
  · cases hc : pod.containers with
    | nil => exact absurd hc hcne
    | cons c0 cs =>
      have hch : chooseContainer pod c0 d.containerName = none := by
        simp only [chooseContainer, hn]
        rw [if_neg hne]
        exact hfind
      simp [startSyncStep, hl, hc, hch]
  · simp [startSync, hstep]

/-- Witness for C7 at concrete inputs: the pod's first container is used
when no name is declared, and a declaration naming an absent container is
skipped with a warning while the rest of the batch still runs. -/
theorem sync_container_selection_witness :
    startSyncStep "dns" [⟨"p1", "dns", "Running", [("app", "x")], [⟨"c1"⟩, ⟨"c2"⟩]⟩] true
        ⟨"/l", "/c", [("app", "x")], none, none⟩ =
      .started ⟨⟨"p1", "dns", "Running", [("app", "x")], [⟨"c1"⟩, ⟨"c2"⟩]⟩, ⟨"c1"⟩, "/l", "/c"⟩
    ∧ startSync "dns" [⟨"p1", "dns", "Running", [("app", "x")], [⟨"c1"⟩, ⟨"c2"⟩]⟩]
        [(⟨"/l", "/c", [("app", "x")], some "c9", none⟩, true),
         (⟨"/m", "/d", [("app", "x")], none, none⟩, true)] =
      ⟨[⟨⟨"p1", "dns", "Running", [("app", "x")], [⟨"c1"⟩, ⟨"c2"⟩]⟩, ⟨"c1"⟩, "/m", "/d"⟩],
       [SyncWarn.containerNotFound], false⟩ := by
  constructor
  · exact (sync_container_selection "dns"
      [⟨"p1", "dns", "Running", [("app", "x")], [⟨"c1"⟩, ⟨"c2"⟩]⟩] true
      ⟨"/l", "/c", [("app", "x")], none, none⟩ []).1
      ⟨"p1", "dns", "Running", [("app", "x")], [⟨"c1"⟩, ⟨"c2"⟩]⟩ ⟨"c1"⟩ [⟨"c2"⟩]
      (by decide) (by decide) rfl
  · have h := (sync_container_selection "dns"
      [⟨"p1", "dns", "Running", [("app", "x")], [⟨"c1"⟩, ⟨"c2"⟩]⟩] true
      ⟨"/l", "/c", [("app", "x")], some "c9", none⟩
      [(⟨"/m", "/d", [("app", "x")], none, none⟩, true)]).2.2
      ((sync_container_selection "dns"
        [⟨"p1", "dns", "Running", [("app", "x")], [⟨"c1"⟩, ⟨"c2"⟩]⟩] true
        ⟨"/l", "/c", [("app", "x")], some "c9", none⟩ []).2.1
        ⟨"p1", "dns", "Running", [("app", "x")], [⟨"c1"⟩, ⟨"c2"⟩]⟩ "c9"
        (by decide) rfl (by decide) (by decide) (by decide))
    rw [h]
    decide

/-- C9: a sync declaration resolving to a pod with an empty container list
is skipped with the no-containers warning and no session is started; and
whenever a session *is* started, its container is one of the resolved pod's
own containers — first-container selection never reads outside the list. -/
theorem sync_empty_containers_safe (rns : String) (pods : List Pod) (ok : Bool)
    (d : SyncDecl) :
    (∀ pod,
      GetFirstRunningPod pods d.labelSelector (resolveNamespace rns d.nsOverride) = some pod →
      pod.containers = [] →
      startSyncStep rns pods ok d = .warnSkip .noContainers)
    ∧ (∀ hdl, startSyncStep rns pods ok d = .started hdl →
        hdl.container ∈ hdl.pod.containers) := by
  refine ⟨fun pod hl hc => ?_, fun hdl hstep => ?_⟩
  · simp [startSyncStep, hl, hc]
  · cases hl : GetFirstRunningPod pods d.labelSelector (resolveNamespace rns d.nsOverride) with
    | none =>
      simp only [startSyncStep, hl] at hstep
      exact absurd hstep (by simp)
    | some pod =>
      simp only [startSyncStep, hl] at hstep
      cases hc : pod.containers with
      | nil =>
        simp only [hc] at hstep
        exact absurd hstep (by simp)
      | cons c0 cs =>
        simp only [hc] at hstep
        cases hch : chooseContainer pod c0 d.containerName with
        | none =>
          simp only [hch] at hstep
          exact absurd hstep (by simp)
        | some c =>
          simp only [hch] at hstep
          by_cases hok : ok = true
          · simp only [hok, if_true, SyncStepResult.started.injEq] at hstep
            rw [← hstep]
            exact chooseContainer_mem pod c0 d.containerName c
              (by rw [hc]; exact List.mem_cons_self c0 cs) hch
          · simp only [hok, if_false] at hstep
            exact absurd hstep (by simp)

/-- Witness for C9 at a concrete input: a matched pod with zero containers
is skipped with the no-containers warning. -/
theorem sync_empty_containers_safe_witness :
    startSyncStep "dns" [⟨"p2", "dns", "Running", [("app", "y")], []⟩] true
        ⟨"/l", "/c", [("app", "y")], none, none⟩ = .warnSkip .noContainers :=
  (sync_empty_containers_safe "dns" [⟨"p2", "dns", "Running", [("app", "y")], []⟩]
    true ⟨"/l", "/c", [("app", "y")], none, none⟩).1
    ⟨"p2", "dns", "Running", [("app", "y")], []⟩ (by decide) rfl

/-- C8: flag validation precedes any mutation — invoked with an empty
parsed selector, the remove-all flag false and empty path/port arguments,
both remove sub-operations print the "at least one of the supported flags"
error and return without writing the persisted configuration, whatever that
configuration currently holds. -/
theorem remove_flag_validation_before_save
    (syncCfg : Option (List SyncConfigEntry))
    (portsCfg : Option (List PortForwardingConfig)) :
    RunRemoveSync [] false "" "" syncCfg = ⟨true, none⟩
    ∧ RunRemovePort [] false "" portsCfg = ⟨true, none⟩ := by
  constructor
  · simp [RunRemoveSync]
  · simp [RunRemovePort]

/-- Every entry produced by the port-entry rewrite loop keeps a non-empty
port-mapping list: an entry whose mappings were all removed is dropped. -/
theorem removePortEntries_mappings_nonempty (selMap : List (String × String))
    (removeAll : Bool) (ports : List String) :
    ∀ l, ∀ e ∈ removePortEntries selMap removeAll ports l, e.portMappings ≠ [] := by
  intro l
  induction l with
  | nil => intro e he; simp [removePortEntries] at he
  | cons v rest ih =>
    intro e he
    simp only [removePortEntries] at he
    split at he
    · exact ih e he
    · split at he
      · rename_i hlen
        rcases List.mem_cons.mp he with rfl | hmem
        · show filterPortMappings ports v.portMappings ≠ []
          intro hnil
          rw [hnil] at hlen
          simp at hlen
        · exact ih e hmem
      · exact ih e he

/-- C10: whenever `RunRemovePort` writes a new configuration, every
port-forwarding entry it retains still has at least one port mapping. -/
theorem removePort_drops_empty_entries (selMap : List (String × String))
    (removeAll : Bool) (argPorts : String)
    (entries newEntries : List PortForwardingConfig)
    (hsave : (RunRemovePort selMap removeAll argPorts (some entries)).saved =
      some newEntries) :
    ∀ e ∈ newEntries, e.portMappings ≠ [] := by
  unfold RunRemovePort at hsave
  split at hsave
  · simp at hsave
  · split at hsave
    · rename_i heq
      exact absurd heq (by simp)
    · rename_i es heq
      injection heq with heq2
      subst heq2
      split at hsave
      · simp only [Option.some.injEq] at hsave
        rw [← hsave]
        exact removePortEntries_mappings_nonempty selMap removeAll
          (splitComma argPorts) entries
      · simp at hsave

/-- Witness for C10 at a concrete input: after removing port 8080 the
first entry (whose only mapping used 8080) is gone and the surviving entry
still has a mapping. -/
theorem removePort_drops_empty_entries_witness :
    (⟨[("r", "u")], [⟨9090, 90⟩]⟩ : PortForwardingConfig).portMappings ≠ [] :=
  removePort_drops_empty_entries [] false "8080"
    [⟨[("r", "t")], [⟨8080, 80⟩]⟩, ⟨[("r", "u")], [⟨9090, 90⟩, ⟨8080, 81⟩]⟩]
    [⟨[("r", "u")], [⟨9090, 90⟩]⟩] (by decide)
    ⟨[("r", "u")], [⟨9090, 90⟩]⟩ (by decide)

end DevSpace
